import Mathlib

/-!
Shallow embedding of the endpoint-fleet reconciler of `operator-common`
(files `src/lib.rs`, `src/types/load_balancer.rs`, `src/types/service.rs`).

Asynchronous control-plane calls are embedded by passing their outcomes as
explicit inputs; `JoinSet` fan-in loops are embedded as functions over the
list of task join results in completion order.  A Rust panic (out-of-bounds
indexing, `Option::unwrap` on `None`) is embedded as the `Except.error`
branch of an `Except Panic _` value.
-/

namespace OperatorCommon

/-- A Rust runtime panic reachable in the embedded code. -/
inductive Panic where
  | indexOutOfBounds
  | unwrapNone
deriving DecidableEq, Repr

/-- Model of `kube::core::ErrorResponse` — the payload of `kube::Error::Api`. -/
structure ErrorResponse where
  status : String
  message : String
  reason : String
  code : Nat
deriving DecidableEq, Repr

/-- Model of `kube::Error`: the `Api` variant carries an `ErrorResponse`; every other
variant of the Rust enum is collapsed into `other` with its description,
which is all the embedded code ever inspects. -/
inductive KubeError where
  | api : ErrorResponse → KubeError
  | other : String → KubeError
deriving DecidableEq, Repr

/-- Model of `crate::Error` from `src/lib.rs` (the constructors carry the payloads the
embedded code constructs or inspects; sources are kept as descriptions). -/
inductive CrateError where
  | serializationError : String → CrateError
  | kubeError : KubeError → CrateError
  | illegalDocument : CrateError
  | ipTimeout : CrateError
  | ingressListEmpty : CrateError
  | ingressListMissing : CrateError
  | joinError : String → CrateError
  | waitError : String → CrateError
  | waitTimeout : CrateError
  | missingNodeInputs : String → CrateError
deriving DecidableEq, Repr

/-- Model of the `k8s_openapi` `LoadBalancerIngress`: only the `ip` field is read. -/
structure LoadBalancerIngress where
  ip : Option String
deriving DecidableEq, Repr

/-- Model of the `k8s_openapi` `LoadBalancerStatus`. -/
structure LoadBalancerStatus where
  ingress : Option (List LoadBalancerIngress)
deriving DecidableEq, Repr

/-- Model of the `k8s_openapi` `ServiceStatus`: only the `load_balancer` field is read. -/
structure ServiceStatus where
  load_balancer : Option LoadBalancerStatus
deriving DecidableEq, Repr

/-- Model of the `k8s_openapi` `Service`, restricted to the fields the embedded code
reads: its name (via `ResourceExt::name_any`) and its observed status. -/
structure Service where
  name : String
  status : Option ServiceStatus
deriving DecidableEq, Repr

/-- The readiness predicate built by `external_ip_exists()` in
`src/types/load_balancer.rs`.  The Rust closure indexes `ingress[0]`
without an emptiness guard, so on `Some(vec![])` it panics instead of
returning a `Bool`; the panic is the `Except.error` branch. -/
def external_ip_exists (obj : Option Service) : Except Panic Bool :=
  match obj with
  | some svc =>
    match svc.status with
    | some status =>
      match status.load_balancer with
      | some lb =>
        match lb.ingress with
        | some ingress =>
          match ingress with
          | [] => .error .indexOutOfBounds
          | first :: _ =>
            match first.ip with
            | some _ => .ok true
            | none => .ok false
        | none => .ok false
      | none => .ok false
    | none => .ok false
  | none => .ok false

/-- Outcome of `tokio::time::timeout(300s, await_condition(..))` inside
`wait`: the deadline elapsed, the watch stream failed, or the condition
resolved with the last observed object. -/
inductive WaitOutcome where
  | elapsed
  | watchErr : String → WaitOutcome
  | resolved : Option Service → WaitOutcome
deriving DecidableEq, Repr

/-- Embedding of `load_balancer::wait` (`src/types/load_balancer.rs`, lines 134–156),
from the outcome of the timed condition wait onward.  The `?` on the
timeout converts `Elapsed` into `CrateError.waitTimeout` (the `#[from]`
on `WaitTimeout`); a watch-stream error becomes `CrateError.waitError`;
on resolution the chain `res.unwrap().status.unwrap().load_balancer.unwrap()`
panics when a link is `None`; the `!ingress.is_empty()` guard before
`ingress[0].clone().ip.unwrap()` is rendered as the match on the list. -/
def wait (out : WaitOutcome) : Except Panic (Except CrateError String) :=
  match out with
  | .elapsed => .ok (.error .waitTimeout)
  | .watchErr e => .ok (.error (.waitError e))
  | .resolved obj =>
    match obj with
    | none => .error .unwrapNone
    | some svc =>
      match svc.status with
      | none => .error .unwrapNone
      | some status =>
        match status.load_balancer with
        | none => .error .unwrapNone
        | some lb =>
          match lb.ingress with
          | some ingress =>
            match ingress with
            | [] => .ok (.error .ingressListEmpty)
            | first :: _ =>
              match first.ip with
              | some ip => .ok (.ok ip)
              | none => .error .unwrapNone
          | none => .ok (.error .ingressListMissing)

/-- Outcome of the control-plane call `api.delete(name, &DeleteParams::default())`
inside `service::delete`: success, or a `kube::Error`. -/
inductive DeleteApiOutcome where
  | ok
  | err : KubeError → DeleteApiOutcome
deriving DecidableEq, Repr

namespace service

/-- Embedding of `service::delete` (`src/types/service.rs`, lines 81–100): on success
return `()`; on `Error::Api` with reason `"NotFound"` return success,
otherwise re-surface the same error; every non-`Api` error is surfaced
verbatim.  `name` and `ns` parameterize the call but do not influence the
branch taken, which depends only on the control plane's answer. -/
def delete (name ns : String) (outcome : DeleteApiOutcome) : Except KubeError Unit :=
  match name, ns, outcome with
  | _, _, .ok => .ok ()
  | _, _, .err e =>
    match e with
    | .api er =>
      if er.reason = "NotFound" then .ok ()
      else .error (.api er)
    | .other m => .error (.other m)

end service

/-- Model of `crate::ActionType` from `src/lib.rs`. -/
inductive ActionType where
  | Create
  | Update
deriving DecidableEq, Repr

/-- Decidable equality of embedded call results. -/
instance {ε α : Type} [DecidableEq ε] [DecidableEq α] :
    DecidableEq (Except ε α) := fun x y =>
  match x, y with
  | .ok a, .ok b =>
    if h : a = b then isTrue (by rw [h])
    else isFalse (by intro hc; cases hc; exact h rfl)
  | .ok _, .error _ => isFalse (by intro hc; cases hc)
  | .error _, .ok _ => isFalse (by intro hc; cases hc)
  | .error a, .error b =>
    if h : a = b then isTrue (by rw [h])
    else isFalse (by intro hc; cases hc; exact h rfl)

namespace load_balancer

/-- The name `format!("\x7bname\x7d-p2p-\x7bidx\x7d")` — the deterministic endpoint
object name used by `_create`, the shrink path of `create`, and
`get_external_ips`. -/
def podName (name : String) (idx : Nat) : String :=
  name ++ "-p2p-" ++ Nat.repr idx

/-- The key `format!("\x7bname\x7d-\x7bidx\x7d")` — the address-map key built in
`get_external_ips`. -/
def addrKey (name : String) (idx : Nat) : String :=
  name ++ "-" ++ Nat.repr idx

/-- The fan-in loop of `load_balancer::delete` (lines 116–128): drain the
`JoinSet` in completion order.  A result that joined (`Ok(_)`) is matched
by the wildcard pattern and discarded — even when the joined
`service::delete` itself returned an error — while a `JoinError` causes an
immediate `return` of the synthetic `Error::Api` aggregate (status
`"Failed"`, the join error's description as message, a fixed reason, code
418), abandoning the remaining results. -/
def deleteJoinLoop :
    List (Except String (Except KubeError Unit)) → Except KubeError Unit
  | [] => .ok ()
  | .ok _ :: rest => deleteJoinLoop rest
  | .error err :: _ =>
    .error (.api
      { status := "Failed"
        message := err
        reason := "Failed to join set while deleting load balancers"
        code := 418 })

/-- Embedding of `load_balancer::delete` (lines 99–131): list the label-selected
LoadBalancer services (propagating a list failure via `?`), spawn one
`service::delete` per listed service, then drain the join results.
`listOutcome` is the control plane's answer to the list call and
`joined` the join results in completion order (one per listed service). -/
def delete (listOutcome : Except KubeError (List Service))
    (joined : List (Except String (Except KubeError Unit))) :
    Except KubeError Unit :=
  match listOutcome with
  | .error e => .error e
  | .ok _ => deleteJoinLoop joined

/-- The body of `_create`'s per-index iteration (lines 187–218): each
iteration spawns the deploy task for one index and immediately drains the
whole `JoinSet` — which holds exactly that one task — so the joined results
are consumed in index order.  A joined task is matched by `Ok(_)` and
discarded even when its `service::deploy` returned an error; a `JoinError`
is only logged (`error!`), collected here as the second component.  No
branch propagates a failure. -/
def _createGo (joined : Nat → Except String (Except KubeError Service)) :
    List Nat → Except CrateError Unit × List String
  | [] => (.ok (), [])
  | idx :: rest =>
    let tail := _createGo joined rest
    match joined idx with
    | .ok _ => tail
    | .error e => (tail.1, e :: tail.2)

/-- Embedding of `load_balancer::_create` (lines 176–221): iterate `idx` in
`lower..upper`, deploying `\x7bname\x7d-p2p-\x7bidx\x7d` for each; `joined idx`
is the join result of index `idx`'s deploy task.  Returns the function
result together with the list of logged join-failure descriptions. -/
def _create (lower upper : Nat)
    (joined : Nat → Except String (Except KubeError Service)) :
    Except CrateError Unit × List String :=
  _createGo joined (List.range' lower (upper - lower))

/-- The fan-in loop of `get_external_ips` (lines 90–93):
`let (pod_name, ip_address) = res??;` — the first `?` converts a
`JoinError` into `CrateError.joinError`, the second propagates the waited
error unchanged; a successful pair is inserted into the address map.
`acc` is the map built so far (an association list standing in for the
`BTreeMap`: inserting replaces any earlier binding of the key). -/
def gatherGo (acc : List (String × String)) :
    List (Except String (Except CrateError (String × String))) →
    Except CrateError (List (String × String))
  | [] => .ok acc
  | .error j :: _ => .error (.joinError j)
  | .ok (.error e) :: _ => .error e
  | .ok (.ok kv) :: rest =>
      gatherGo (acc.filter (fun p => p.1 ≠ kv.1) ++ [kv]) rest

/-- The Rust iteration `for idx in 0..replicas` over the `i32` replica
count: empty when `replicas ≤ 0`. -/
def spawnIndices (replicas : Int) : List Nat :=
  if replicas ≤ 0 then [] else List.range replicas.toNat

/-- The spawn phase of `get_external_ips` (lines 77–88): one task per
index in `0..replicas`, each returning
`wait(..).map(|ip| (format!("\x7bn\x7d-\x7bidx\x7d"), ip))`; `waitRes idx` is the
join result of index `idx`'s task around its `wait` result. -/
def spawnWaits (name : String) (replicas : Int)
    (waitRes : Nat → Except String (Except CrateError String)) :
    List (Except String (Except CrateError (String × String))) :=
  (spawnIndices replicas).map fun idx =>
    match waitRes idx with
    | .error j => .error j
    | .ok w =>
      match w with
      | .ok ip => .ok (.ok (addrKey name idx, ip))
      | .error e => .ok (.error e)

/-- Embedding of `load_balancer::get_external_ips` (lines 69–96), with the spawned
tasks' join results consumed in spawn order. -/
def get_external_ips (name : String) (replicas : Int)
    (waitRes : Nat → Except String (Except CrateError String)) :
    Except CrateError (List (String × String)) :=
  gatherGo [] (spawnWaits name replicas waitRes)

/-- Effect of the `ActionType::Update` arm of `load_balancer::create`
(lines 25–62) on the control-plane state, for a run in which `create`
returns success.  The state is the set of names of services matching the
list call's label selector (`app.kubernetes.io/instance=` the cluster
name) and field selector (`spec.type=LoadBalancer`).  `lb_count` is the
size of the listed set.  Excess indices `[replicas, lb_count)` are deleted
by their deterministic names; a delete error propagates through `?` and
makes `create` fail, so on a successful return every such name is gone
(`"NotFound"` is normalized to success, and an absent name is likewise
gone).  Missing indices `[lb_count, replicas)` are deployed through
`_create`, whose per-index failures are swallowed (see `_createGo`): the
run stays successful either way, and `deployOk idx` records whether index
`idx`'s `service::deploy` actually took effect — only then does its name
join the state.  An equal count changes nothing. -/
def updateFleet (name : String) (replicas : Nat) (deployOk : Nat → Bool)
    (state : Finset String) : Finset String :=
  let lb_count := state.card
  if lb_count > replicas then
    (List.range' replicas (lb_count - replicas)).foldl
      (fun st idx => st.erase (podName name idx)) state
  else if lb_count < replicas then
    (List.range' lb_count (replicas - lb_count)).foldl
      (fun st idx => if deployOk idx then insert (podName name idx) st else st)
      state
  else state

/-- Effect of `load_balancer::create` (lines 12–66) on the fleet state for
a run that returns success: the `Create` arm runs `_create(.., 0, replicas)`,
whose swallowed per-index deploys take effect exactly where `deployOk`
holds; the `Update` arm lists the fleet and reconciles by count
(`updateFleet`). -/
def create (name : String) (replicas : Nat) (action : ActionType)
    (deployOk : Nat → Bool) (state : Finset String) : Finset String :=
  match action with
  | .Create =>
    (List.range' 0 replicas).foldl
      (fun st idx => if deployOk idx then insert (podName name idx) st else st)
      state
  | .Update => updateFleet name replicas deployOk state

end load_balancer

/-! Injectivity of the decimal rendering used by the `format!` naming
convention, proved against core's `Nat.repr`. -/

/-- Specification of `Nat.toDigits 10`: most significant digit first. -/
def repChars : Nat → List Char
  | n =>
    if n < 10 then [Nat.digitChar n]
    else repChars (n / 10) ++ [Nat.digitChar (n % 10)]
  termination_by n => n
  decreasing_by exact Nat.div_lt_self (by omega) (by omega)

theorem toDigitsCore_append (f : Nat) :
    ∀ (n : Nat) (acc : List Char),
      Nat.toDigitsCore 10 f n acc = Nat.toDigitsCore 10 f n [] ++ acc := by
  induction f with
  | zero => intro n acc; simp [Nat.toDigitsCore]
  | succ f ih =>
    intro n acc
    simp only [Nat.toDigitsCore]
    by_cases h : n / 10 = 0
    · simp [h]
    · simp only [h, if_false]
      rw [ih (n / 10) (Nat.digitChar (n % 10) :: acc),
        ih (n / 10) [Nat.digitChar (n % 10)]]
      simp

theorem repChars_of_lt {n : Nat} (h : n < 10) :
    repChars n = [Nat.digitChar n] := by
  rw [repChars]; simp [h]

theorem repChars_of_ge {n : Nat} (h : ¬ n < 10) :
    repChars n = repChars (n / 10) ++ [Nat.digitChar (n % 10)] := by
  rw [repChars]; simp [h]

theorem toDigitsCore_eq_repChars (f : Nat) :
    ∀ n : Nat, n < f → Nat.toDigitsCore 10 f n [] = repChars n := by
  induction f with
  | zero => intro n h; omega
  | succ f ih =>
    intro n hn
    have hstep : Nat.toDigitsCore 10 (f + 1) n [] =
        if n / 10 = 0 then [Nat.digitChar (n % 10)]
        else Nat.toDigitsCore 10 f (n / 10) [Nat.digitChar (n % 10)] := rfl
    by_cases h : n / 10 = 0
    · have hlt : n < 10 := by omega
      rw [hstep, if_pos h, repChars_of_lt hlt, Nat.mod_eq_of_lt hlt]
    · have h10 : 10 ≤ n := by omega
      have hdiv : n / 10 < n := Nat.div_lt_self (by omega) (by omega)
      have hdf : n / 10 < f := by omega
      rw [hstep, if_neg h, toDigitsCore_append, ih (n / 10) hdf,
        repChars_of_ge (show ¬ n < 10 by omega)]

theorem toDigits_eq_repChars (n : Nat) : Nat.toDigits 10 n = repChars n :=
  toDigitsCore_eq_repChars (n + 1) n (Nat.lt_succ_self n)

theorem repChars_ne_nil (n : Nat) : repChars n ≠ [] := by
  rw [repChars]
  by_cases h : n < 10 <;> simp [h]

theorem digitChar_injOn :
    ∀ a, a < 10 → ∀ b, b < 10 → Nat.digitChar a = Nat.digitChar b → a = b := by
  decide

theorem repChars_injective : ∀ m n : Nat, repChars m = repChars n → m = n := by
  intro m
  induction m using Nat.strong_induction_on with
  | _ m ih =>
    intro n h
    by_cases hm : m < 10 <;> by_cases hn : n < 10
    · rw [repChars_of_lt hm, repChars_of_lt hn] at h
      simp only [List.cons.injEq] at h
      exact digitChar_injOn m hm n hn h.1
    · rw [repChars_of_lt hm, repChars_of_ge hn] at h
      cases hr : repChars (n / 10) with
      | nil => exact absurd hr (repChars_ne_nil _)
      | cons a l => rw [hr] at h; simp at h
    · rw [repChars_of_ge hm, repChars_of_lt hn] at h
      cases hr : repChars (m / 10) with
      | nil => exact absurd hr (repChars_ne_nil _)
      | cons a l => rw [hr] at h; simp at h
    · rw [repChars_of_ge hm, repChars_of_ge hn] at h
      obtain ⟨h1, h2⟩ := List.append_inj' h rfl
      have hmod : m % 10 = n % 10 := by
        have hc : Nat.digitChar (m % 10) = Nat.digitChar (n % 10) := by
          simpa using h2
        exact digitChar_injOn (m % 10) (Nat.mod_lt m (by omega)) (n % 10)
          (Nat.mod_lt n (by omega)) hc
      have hdivlt : m / 10 < m := Nat.div_lt_self (by omega) (by omega)
      have hdiv : m / 10 = n / 10 := ih (m / 10) hdivlt (n / 10) h1
      omega

theorem repr_injective : ∀ m n : Nat, Nat.repr m = Nat.repr n → m = n := by
  intro m n h
  have hdata : (Nat.repr m).data = (Nat.repr n).data := congrArg String.data h
  have hchars : Nat.toDigits 10 m = Nat.toDigits 10 n := by
    simpa [Nat.repr, List.asString] using hdata
  rw [toDigits_eq_repChars, toDigits_eq_repChars] at hchars
  exact repChars_injective m n hchars

theorem podName_injective (name : String) :
    Function.Injective (load_balancer.podName name) := by
  intro i j h
  have hdata := congrArg String.data h
  simp only [load_balancer.podName, String.data_append,
    List.append_assoc] at hdata
  have h1 := List.append_cancel_left hdata
  have h2 := List.append_cancel_left h1
  exact repr_injective i j (String.ext h2)

theorem mem_range1 {s n m : Nat} : m ∈ List.range' s n ↔ s ≤ m ∧ m < s + n := by
  rw [List.mem_range']
  constructor
  · rintro ⟨i, hi, rfl⟩; omega
  · rintro ⟨h1, h2⟩; exact ⟨m - s, by omega, by omega⟩

theorem foldl_erase_eq_sdiff (f : Nat → String) (l : List Nat) :
    ∀ st : Finset String,
      l.foldl (fun s x => s.erase (f x)) st = st \ (l.map f).toFinset := by
  induction l with
  | nil => intro st; simp
  | cons a l ih =>
    intro st
    simp only [List.foldl_cons, List.map_cons, List.toFinset_cons]
    rw [ih]
    ext x
    simp only [Finset.mem_sdiff, Finset.mem_erase, Finset.mem_insert,
      List.mem_toFinset]
    tauto

theorem foldl_insert_eq_union (f : Nat → String) (l : List Nat) :
    ∀ st : Finset String,
      l.foldl (fun s x => insert (f x) s) st = st ∪ (l.map f).toFinset := by
  induction l with
  | nil => intro st; simp
  | cons a l ih =>
    intro st
    simp only [List.foldl_cons, List.map_cons, List.toFinset_cons]
    rw [ih]
    ext x
    simp only [Finset.mem_union, Finset.mem_insert, List.mem_toFinset]
    tauto

/-- The fleet state holding exactly the conventionally-named endpoint
objects of indices `[0, k)`. -/
def fleetState (name : String) (k : Nat) : Finset String :=
  (Finset.range k).image (load_balancer.podName name)

theorem fleetState_card (name : String) (k : Nat) :
    (fleetState name k).card = k := by
  rw [fleetState, Finset.card_image_of_injective _ (podName_injective name),
    Finset.card_range]

theorem mem_fleetState {name : String} {k : Nat} {x : String} :
    x ∈ fleetState name k ↔ ∃ i, i < k ∧ load_balancer.podName name i = x := by
  simp [fleetState, Finset.mem_image, Finset.mem_range]

theorem foldl_guarded_insert_of_all_ok (f : Nat → String) (ok : Nat → Bool)
    (l : List Nat) :
    ∀ st : Finset String, (∀ x ∈ l, ok x = true) →
      l.foldl (fun st idx => if ok idx then insert (f idx) st else st) st =
        l.foldl (fun st idx => insert (f idx) st) st := by
  induction l with
  | nil => intro st _; rfl
  | cons a l ih =>
    intro st h
    simp only [List.foldl_cons, h a (List.mem_cons_self a l), if_true]
    exact ih _ fun x hx => h x (List.mem_cons_of_mem _ hx)

theorem updateFleet_fleetState (name : String) (replicas existing : Nat)
    (deployOk : Nat → Bool)
    (hdep : ∀ idx, existing ≤ idx → idx < replicas → deployOk idx = true) :
    load_balancer.updateFleet name replicas deployOk
        (fleetState name existing) = fleetState name replicas := by
  have hinj := podName_injective name
  unfold load_balancer.updateFleet
  rw [fleetState_card]
  by_cases h1 : existing > replicas
  · rw [if_pos h1, foldl_erase_eq_sdiff]
    ext x
    simp only [Finset.mem_sdiff, List.mem_toFinset, List.mem_map,
      mem_fleetState]
    constructor
    · rintro ⟨⟨i, hi, rfl⟩, hnot⟩
      refine ⟨i, ?_, rfl⟩
      by_contra hge
      exact hnot ⟨i, mem_range1.2 ⟨by omega, by omega⟩, rfl⟩
    · rintro ⟨i, hi, rfl⟩
      refine ⟨⟨i, by omega, rfl⟩, ?_⟩
      rintro ⟨j, hj, hpn⟩
      rw [mem_range1] at hj
      have := hinj hpn
      omega
  · rw [if_neg h1]
    by_cases h2 : existing < replicas
    · rw [if_pos h2,
        foldl_guarded_insert_of_all_ok (load_balancer.podName name) deployOk _ _
          (fun x hx => by
            rw [mem_range1] at hx
            exact hdep x hx.1 (by omega)),
        foldl_insert_eq_union]
      ext x
      simp only [Finset.mem_union, List.mem_toFinset, List.mem_map,
        mem_fleetState]
      constructor
      · rintro (⟨i, hi, rfl⟩ | ⟨j, hj, rfl⟩)
        · exact ⟨i, by omega, rfl⟩
        · rw [mem_range1] at hj
          exact ⟨j, by omega, rfl⟩
      · rintro ⟨i, hi, rfl⟩
        by_cases hie : i < existing
        · exact Or.inl ⟨i, hie, rfl⟩
        · exact Or.inr ⟨i, mem_range1.2 ⟨by omega, by omega⟩, rfl⟩
    · rw [if_neg h2]
      have : existing = replicas := by omega
      rw [this]

/-! Helper lemmas about the fan-in loops. -/

theorem deleteJoinLoop_all_joined (joined : List (Except String (Except KubeError Unit)))
    (h : ∀ r ∈ joined, ∃ x, r = Except.ok x) :
    load_balancer.deleteJoinLoop joined = Except.ok () := by
  induction joined with
  | nil => rfl
  | cons r rest ih =>
    obtain ⟨x, rfl⟩ := h r (List.mem_cons_self r rest)
    exact ih fun r hr => h r (List.mem_cons_of_mem _ hr)

theorem deleteJoinLoop_first_join_failure
    (pre : List (Except String (Except KubeError Unit))) (msg : String)
    (rest : List (Except String (Except KubeError Unit)))
    (h : ∀ r ∈ pre, ∃ x, r = Except.ok x) :
    load_balancer.deleteJoinLoop (pre ++ Except.error msg :: rest) =
      Except.error (KubeError.api
        { status := "Failed"
          message := msg
          reason := "Failed to join set while deleting load balancers"
          code := 418 }) := by
  induction pre with
  | nil => rfl
  | cons r pre ih =>
    obtain ⟨x, rfl⟩ := h r (List.mem_cons_self r pre)
    exact ih fun r hr => h r (List.mem_cons_of_mem _ hr)

theorem _createGo_spec (joined : Nat → Except String (Except KubeError Service)) :
    ∀ l : List Nat,
      (load_balancer._createGo joined l).1 = Except.ok () ∧
      (load_balancer._createGo joined l).2 = l.filterMap fun idx =>
        match joined idx with
        | .error e => some e
        | .ok _ => none := by
  intro l
  induction l with
  | nil => exact ⟨rfl, rfl⟩
  | cons idx rest ih =>
    simp only [load_balancer._createGo, List.filterMap_cons]
    cases hj : joined idx with
    | ok x => simpa [hj] using ih
    | error e => simpa [hj] using ih

theorem gatherGo_skips_ok_results
    (pre l : List (Except String (Except CrateError (String × String)))) :
    ∀ acc : List (String × String),
      (∀ x ∈ pre, ∃ kv, x = Except.ok (Except.ok kv)) →
      ∃ acc', load_balancer.gatherGo acc (pre ++ l) =
        load_balancer.gatherGo acc' l := by
  induction pre with
  | nil => exact fun acc _ => ⟨acc, rfl⟩
  | cons r pre ih =>
    intro acc h
    obtain ⟨kv, rfl⟩ := h r (List.mem_cons_self r pre)
    exact ih (acc.filter (fun p => p.1 ≠ kv.1) ++ [kv])
      fun x hx => h x (List.mem_cons_of_mem _ hx)

/-! Claim theorems. -/

/-- Claim C1, counterexample: a fleet member whose `service::delete` task
joined but returned an error does not make `load_balancer::delete` fail —
the call returns success and in particular not the synthetic aggregate
error the claim predicts. -/
theorem C1_counterexample_member_failure_returns_success :
    load_balancer.delete
        (Except.ok [{ name := "c-p2p-0", status := none }])
        [Except.ok (Except.error (KubeError.other "delete failed"))] =
      Except.ok () ∧
    load_balancer.delete
        (Except.ok [{ name := "c-p2p-0", status := none }])
        [Except.ok (Except.error (KubeError.other "delete failed"))] ≠
      Except.error (KubeError.api
        { status := "Failed"
          message := "delete failed"
          reason := "Failed to join set while deleting load balancers"
          code := 418 }) := by
  exact ⟨rfl, by decide⟩

/-- Claim C1, amended: the fleet-delete fan-in drains join results in
completion order, but an individual delete's returned error is discarded by
the `Ok(_)` arm — when every task joins, the call returns success no matter
how many member deletes failed; only a join failure (a task that never
produced a result) yields the synthetic aggregate `Api` error carrying the
join error's description and the fixed classification, returned
immediately without awaiting the remaining results. -/
theorem C1_delete_aggregates_only_join_failures :
    (∀ (listed : List Service) (joined : List (Except String (Except KubeError Unit))),
      (∀ r ∈ joined, ∃ x, r = Except.ok x) →
      load_balancer.delete (Except.ok listed) joined = Except.ok ()) ∧
    (∀ (listed : List Service) (pre : List (Except String (Except KubeError Unit)))
        (msg : String) (rest : List (Except String (Except KubeError Unit))),
      (∀ r ∈ pre, ∃ x, r = Except.ok x) →
      load_balancer.delete (Except.ok listed) (pre ++ Except.error msg :: rest) =
        Except.error (KubeError.api
          { status := "Failed"
            message := msg
            reason := "Failed to join set while deleting load balancers"
            code := 418 })) := by
  constructor
  · intro listed joined h
    exact deleteJoinLoop_all_joined joined h
  · intro listed pre msg rest h
    exact deleteJoinLoop_first_join_failure pre msg rest h

/-- Claim C1 witness: with one member delete that returned an error but
joined (discarded, success) and, separately, a panicked task after one
joined result (synthetic aggregate error). -/
theorem C1_delete_aggregates_only_join_failures_witness :
    load_balancer.delete
        (Except.ok [])
        [Except.ok (Except.error (KubeError.other "delete failed")),
          Except.ok (Except.ok ())] = Except.ok () ∧
    load_balancer.delete
        (Except.ok [])
        [Except.ok (Except.ok ()), Except.error "task panicked"] =
      Except.error (KubeError.api
        { status := "Failed"
          message := "task panicked"
          reason := "Failed to join set while deleting load balancers"
          code := 418 }) := by
  constructor
  · exact C1_delete_aggregates_only_join_failures.1 []
      [Except.ok (Except.error (KubeError.other "delete failed")),
        Except.ok (Except.ok ())]
      (List.forall_mem_cons.2 ⟨⟨_, rfl⟩,
        List.forall_mem_cons.2 ⟨⟨_, rfl⟩, List.forall_mem_nil _⟩⟩)
  · exact C1_delete_aggregates_only_join_failures.2 []
      [Except.ok (Except.ok ())] "task panicked" []
      (List.forall_mem_cons.2 ⟨⟨_, rfl⟩, List.forall_mem_nil _⟩)

/-- Claim C2: when the timed condition wait resolves and the resolved
object's status and load-balancer status are present, an ingress list that
is present but empty makes `wait` return `IngressListEmpty`, an absent
ingress field makes it return `IngressListMissing`, and both errors are
distinct from the timeout error `WaitTimeout`. -/
theorem C2_wait_distinguishes_empty_and_missing_ingress
    (svc : Service) (st : ServiceStatus) (lb : LoadBalancerStatus)
    (h1 : svc.status = some st) (h2 : st.load_balancer = some lb) :
    (lb.ingress = some [] →
      wait (.resolved (some svc)) =
        Except.ok (Except.error CrateError.ingressListEmpty)) ∧
    (lb.ingress = none →
      wait (.resolved (some svc)) =
        Except.ok (Except.error CrateError.ingressListMissing)) ∧
    CrateError.ingressListEmpty ≠ CrateError.waitTimeout ∧
    CrateError.ingressListMissing ≠ CrateError.waitTimeout := by
  refine ⟨?_, ?_, by decide, by decide⟩
  · intro h3
    simp [wait, h1, h2, h3]
  · intro h3
    simp [wait, h1, h2, h3]

/-- Claim C2 witness: a resolved service whose ingress list is present but
empty yields `IngressListEmpty`. -/
theorem C2_wait_distinguishes_empty_and_missing_ingress_witness :
    wait (.resolved (some
        { name := "c-p2p-0"
          status := some { load_balancer := some { ingress := some [] } } })) =
      Except.ok (Except.error CrateError.ingressListEmpty) :=
  (C2_wait_distinguishes_empty_and_missing_ingress
    { name := "c-p2p-0"
      status := some { load_balancer := some { ingress := some [] } } }
    { load_balancer := some { ingress := some [] } }
    { ingress := some [] } rfl rfl).1 rfl

/-- Claim C3, counterexample: a per-index apply (deploy) failure during the
`_create` fan-out is not surfaced — the joined-but-failed task is matched
by `Ok(_)` and silently discarded (not even logged), and `_create` returns
success. -/
theorem C3_counterexample_apply_failure_swallowed :
    load_balancer._create 0 1
        (fun _ => Except.ok (Except.error (KubeError.other "apply rejected"))) =
      (Except.ok (), []) := by
  rfl

/-- Claim C3, amended: `_create` never propagates a failure: its result is
success for every combination of per-index outcomes; a deploy task that
joined with an error is silently discarded, and only join failures are
logged (the log holding exactly the join-error descriptions, in index
order).  Consequently a successful `create`/reconcile does not imply the
per-index applies succeeded. -/
theorem C3_create_always_succeeds_and_logs_only_join_failures
    (lower upper : Nat)
    (joined : Nat → Except String (Except KubeError Service)) :
    (load_balancer._create lower upper joined).1 = Except.ok () ∧
    (load_balancer._create lower upper joined).2 =
      (List.range' lower (upper - lower)).filterMap fun idx =>
        match joined idx with
        | .error e => some e
        | .ok _ => none :=
  _createGo_spec joined (List.range' lower (upper - lower))

/-- Claim C4, counterexample: from a prior fleet that violates the
contiguous naming convention — a single endpoint object at index 5 — an
`Update` reconcile to one replica is a no-op (count equals desired), so
the resulting fleet is not `\x7b0\x7d` — even with every deploy taking
effect. -/
theorem C4_counterexample_noncontiguous_fleet_not_converged :
    load_balancer.create "c" 1 ActionType.Update (fun _ => true)
        {load_balancer.podName "c" 5} ≠ fleetState "c" 1 := by
  decide

/-- Claim C4, amended: for every desired count and every prior fleet state
that follows the contiguous naming convention (its objects being exactly
the indices `[0, existing)` under the `-p2p-` naming scheme), after a
`create(.., ActionType::Update)` run that returns success and in which the
swallowed per-index deploys for the missing indices `[existing, desired)`
in fact took effect, the fleet state is exactly the indices `[0, desired)`:
excess indices `[desired, existing)` are deleted by their deterministic
names (their delete errors propagate, so a successful return already
implies these deletions took effect), missing indices are created, and an
equal count changes nothing.  Success of `create` alone does not suffice,
since `_create` swallows deploy failures. -/
theorem C4_update_reconciles_contiguous_fleet
    (name : String) (replicas existing : Nat) (deployOk : Nat → Bool)
    (hdep : ∀ idx, existing ≤ idx → idx < replicas → deployOk idx = true) :
    load_balancer.create name replicas ActionType.Update deployOk
        (fleetState name existing) = fleetState name replicas :=
  updateFleet_fleetState name replicas existing deployOk hdep

/-- Claim C4 witness: growing a contiguous single-member fleet to three
replicas, with the grow-path deploys taking effect, yields exactly the
indices 0, 1, 2. -/
theorem C4_update_reconciles_contiguous_fleet_witness :
    load_balancer.create "c" 3 ActionType.Update (fun _ => true)
        (fleetState "c" 1) = fleetState "c" 3 :=
  C4_update_reconciles_contiguous_fleet "c" 3 1 (fun _ => true)
    (fun _ _ _ => rfl)

/-- Claim C5: the address-discovery fan-in is fail-fast — after any run of
successful pairs, the first failing join result makes `get_external_ips`
return that failure at once: a waited error (e.g. the wait timeout) is
propagated unchanged and a join failure becomes `JoinError`, in both cases
regardless of (and without consuming) the outstanding results, and with no
partial address map returned. -/
theorem C5_discover_addresses_fail_fast
    (acc : List (String × String))
    (pre rest : List (Except String (Except CrateError (String × String))))
    (e : CrateError) (j : String)
    (h : ∀ x ∈ pre, ∃ kv, x = Except.ok (Except.ok kv)) :
    load_balancer.gatherGo acc (pre ++ Except.ok (Except.error e) :: rest) =
      Except.error e ∧
    load_balancer.gatherGo acc (pre ++ Except.error j :: rest) =
      Except.error (CrateError.joinError j) := by
  constructor
  · obtain ⟨acc', hacc⟩ := gatherGo_skips_ok_results pre
      (Except.ok (Except.error e) :: rest) acc h
    rw [hacc]
    rfl
  · obtain ⟨acc', hacc⟩ := gatherGo_skips_ok_results pre
      (Except.error j :: rest) acc h
    rw [hacc]
    rfl

/-- Claim C5 witness: replica 1 of 3 timing out is reported as the wait
timeout even though replica 0 already produced an address and replica 2's
result is still outstanding. -/
theorem C5_discover_addresses_fail_fast_witness :
    load_balancer.gatherGo []
        [Except.ok (Except.ok ("c-0", "203.0.113.5")),
          Except.ok (Except.error CrateError.waitTimeout),
          Except.ok (Except.ok ("c-2", "203.0.113.7"))] =
      Except.error CrateError.waitTimeout :=
  (C5_discover_addresses_fail_fast []
    [Except.ok (Except.ok ("c-0", "203.0.113.5"))]
    [Except.ok (Except.ok ("c-2", "203.0.113.7"))]
    CrateError.waitTimeout "unused"
    (List.forall_mem_cons.2 ⟨⟨_, rfl⟩, List.forall_mem_nil _⟩)).1

/-- Claim C6: the readiness predicate does not evaluate to false on every
non-ready state — on an observed service whose ingress list is present but
empty, the unguarded `ingress[0]` panics, so the evaluation is neither
`true` nor `false`. -/
theorem C6_predicate_not_false_on_empty_ingress :
    external_ip_exists (some
        { name := "c-p2p-0"
          status := some { load_balancer := some { ingress := some [] } } }) ≠
      Except.ok false ∧
    external_ip_exists (some
        { name := "c-p2p-0"
          status := some { load_balancer := some { ingress := some [] } } }) ≠
      Except.ok true := by
  decide

/-- Claim C7: the single-object delete primitive returns success when the
control plane answers with an `Api` error whose reason is `"NotFound"`,
and surfaces every other error verbatim — so deleting an already-absent
endpoint object never returns an error. -/
theorem C7_delete_normalizes_not_found
    (name ns : String) (er : ErrorResponse) (m : String) :
    (er.reason = "NotFound" →
      service.delete name ns (.err (KubeError.api er)) = Except.ok ()) ∧
    (er.reason ≠ "NotFound" →
      service.delete name ns (.err (KubeError.api er)) =
        Except.error (KubeError.api er)) ∧
    service.delete name ns (.err (KubeError.other m)) =
      Except.error (KubeError.other m) ∧
    service.delete name ns .ok = Except.ok () := by
  refine ⟨?_, ?_, rfl, rfl⟩
  · intro h
    simp [service.delete, h]
  · intro h
    simp [service.delete, h]

/-- Claim C7 witness: deleting an absent object (control plane answers
`NotFound`) is success; a forbidden answer is surfaced verbatim. -/
theorem C7_delete_normalizes_not_found_witness :
    service.delete "c-p2p-0" "ns"
        (.err (KubeError.api
          { status := "Failure", message := "not found", reason := "NotFound",
            code := 404 })) = Except.ok () ∧
    service.delete "c-p2p-0" "ns"
        (.err (KubeError.api
          { status := "Failure", message := "forbidden", reason := "Forbidden",
            code := 403 })) =
      Except.error (KubeError.api
        { status := "Failure", message := "forbidden", reason := "Forbidden",
          code := 403 }) := by
  constructor
  · exact (C7_delete_normalizes_not_found "c-p2p-0" "ns"
      { status := "Failure", message := "not found", reason := "NotFound",
        code := 404 } "x").1 rfl
  · exact (C7_delete_normalizes_not_found "c-p2p-0" "ns"
      { status := "Failure", message := "forbidden", reason := "Forbidden",
        code := 403 } "x").2.1 (by decide)

/-- Claim C8: when the wait deadline elapses, `wait` fails with the
dedicated `WaitTimeout` error, which is a different constructor of the
error type from the control-plane error `KubeError` and from the
watch-stream error `WaitError` (itself produced on a watch failure). -/
theorem C8_timeout_is_distinct_error_kind :
    wait WaitOutcome.elapsed =
      Except.ok (Except.error CrateError.waitTimeout) ∧
    (∀ s : String, wait (WaitOutcome.watchErr s) =
      Except.ok (Except.error (CrateError.waitError s))) ∧
    (∀ k : KubeError, CrateError.waitTimeout ≠ CrateError.kubeError k) ∧
    (∀ s : String, CrateError.waitTimeout ≠ CrateError.waitError s) := by
  refine ⟨rfl, fun s => rfl, fun k h => ?_, fun s h => ?_⟩
  · cases h
  · cases h

/-- Claim C9: evaluating the readiness predicate is not total — on a
service whose `status.load_balancer.ingress` is present but an empty list,
the unguarded `ingress[0]` indexing panics. -/
theorem C9_predicate_evaluation_panics_on_empty_ingress :
    external_ip_exists (some
        { name := "c-p2p-0"
          status := some { load_balancer := some { ingress := some [] } } }) =
      Except.error Panic.indexOutOfBounds := by
  rfl

/-- Claim C10: for every non-positive replica count, `get_external_ips`
spawns no wait tasks (the `0..replicas` iteration is empty) and returns
success with the empty address map. -/
theorem C10_discover_nonpositive_replicas_empty
    (name : String)
    (waitRes : Nat → Except String (Except CrateError String))
    (replicas : Int) (h : replicas ≤ 0) :
    load_balancer.spawnWaits name replicas waitRes = [] ∧
    load_balancer.get_external_ips name replicas waitRes = Except.ok [] := by
  have hidx : load_balancer.spawnIndices replicas = [] := by
    simp [load_balancer.spawnIndices, h]
  constructor
  · simp [load_balancer.spawnWaits, hidx]
  · simp [load_balancer.get_external_ips, load_balancer.spawnWaits, hidx]
    rfl

/-- Claim C10 witness: a replica count of `-3` yields no spawned tasks and
the empty map. -/
theorem C10_discover_nonpositive_replicas_empty_witness :
    load_balancer.spawnWaits "c" (-3) (fun _ => Except.error "unused") = [] ∧
    load_balancer.get_external_ips "c" (-3) (fun _ => Except.error "unused") =
      Except.ok [] :=
  C10_discover_nonpositive_replicas_empty "c" (fun _ => Except.error "unused")
    (-3) (by decide)

end OperatorCommon
